import Mathlib

/-!
Shallow embedding of the POSIX signal-handler RAII guard
`de::Koesling::Signal::SignalHandler` (src/SignalHandler.cpp together with
its header src/SignalHandler.hpp).

Modelling choices:

* Function pointers are modelled as their address value (`Nat`): `0` is the
  null pointer, which also equals `SIG_DFL`; `SIG_IGN` is `1`.  A simple
  handler and an extended handler share the `sa_handler` slot, exactly as the
  C `struct sigaction` stores `sa_handler` and `sa_sigaction` in overlapping
  storage; the `SA_SIGINFO` flag selects the calling convention.
* `struct sigaction` becomes the record `Sigaction`.  Besides the handler,
  flags and the blocked-signal mask it keeps one further field
  (`sa_restorer`) standing for the remaining members that `memset` zeroes and
  the class never writes.
* `sigset_t` is modelled as `List Nat`; the code only ever copies it.
* The process-wide signal-disposition table of the OS is a total map
  `Os := Int → Sigaction`.  The `sigaction` system call with a non-null new
  action updates one slot and, when given a non-null output slot, reports the
  previously active disposition; on failure it changes nothing.  Whether the
  system call succeeds is an input of each operation (`ok : Bool`), as is the
  `errno` value it would leave behind.
* C++ exceptions become the inductive `CppException`; member functions that
  can throw after partially acting return an `OpResult` holding the object
  state, the OS state and the exception (if any), mirroring that a thrown
  exception leaves the object alive in its current state.
* Numeric constants carry the values of the Linux/glibc headers the makefile
  compiles against (`g++` on Linux): SIGHUP 1, SIGKILL 9, SIGSTOP 19,
  SIGRTMAX 64, SA_SIGINFO 4, SIG_IGN 1, EX_OSERR 71 (from sysexits.h).
-/

/-- Signal number constant SIGHUP (lowest signal number, Linux value 1). -/
def SIGHUP : Int := 1

/-- Signal number constant SIGKILL (Linux value 9). -/
def SIGKILL : Int := 9

/-- Signal number constant SIGSTOP (Linux value 19). -/
def SIGSTOP : Int := 19

/-- Largest real-time signal number SIGRTMAX (Linux value 64). -/
def SIGRTMAX : Int := 64

/-- Signal number constant SIGUSR1 (Linux value 10), used for concrete runs. -/
def SIGUSR1 : Int := 10

/-- Flag SA_SIGINFO (Linux value 4): the handler uses the three-argument
calling convention. -/
def SA_SIGINFO : Nat := 4

/-- The address value of the special handler SIG_IGN (discard the signal). -/
def SIG_IGN : Nat := 1

/-- Exit status EX_OSERR from sysexits.h (value 71), used by the destructor
on a failing restore. -/
def EX_OSERR : Nat := 71

/-- Model of `struct sigaction`: handler address, flags, blocked-signal mask,
and one representative for the remaining zero-initialized members. -/
structure Sigaction where
  sa_handler : Nat
  sa_flags : Nat
  sa_mask : List Nat
  sa_restorer : Nat
  deriving DecidableEq, Repr

/-- A `struct sigaction` whose bytes have been set to zero by `memset`. -/
def Sigaction.zero : Sigaction :=
  { sa_handler := 0, sa_flags := 0, sa_mask := [], sa_restorer := 0 }

/-- The OS per-process signal-disposition table: active disposition of every
signal number. -/
abbrev Os := Int → Sigaction

/-- Effect of a successful `sigaction(sig, &act, _)` call on the disposition
table: the slot of `sig` now holds `act`, every other slot is unchanged. -/
def osSet (os : Os) (sig : Int) (act : Sigaction) : Os :=
  fun s => if s = sig then act else os s

/-- C++ exceptions thrown by the class: `std::invalid_argument`,
`std::logic_error`, and the system failure raised by `sysexcept`. -/
inductive CppException where
  | invalid_argument (msg : String)
  | logic_error (msg : String)
  | system_error (op : String) (errno : Nat)
  deriving DecidableEq, Repr

/-- Modelled from the spec: `sysexcept` (common_header/sysexcept.hpp, not
under src/) raises a system-level failure condition carrying the failing
operation name and the OS error code; this is the description text a caller
observes (`what()`). -/
def CppException.what : CppException → String
  | CppException.invalid_argument msg => msg
  | CppException.logic_error msg => msg
  | CppException.system_error op errno => op ++ " failed with errno " ++ toString errno

/-- Destination for "non-throwable" error reports: `std::cerr` or some other
caller-supplied stream. -/
inductive OStream where
  | cerr
  | custom (id : Nat)
  deriving DecidableEq, Repr

/-- The guard object: fields of class `SignalHandler`
(src/SignalHandler.hpp, lines 34-53). -/
structure SignalHandler where
  signal_number : Int
  established : Bool
  curent_signal_action : Sigaction
  old_signal_action : Sigaction
  deriving DecidableEq, Repr

/-- Initial value of the static member `error_stream`
(src/SignalHandler.cpp, line 28): the standard error stream. -/
def SignalHandler.error_stream : OStream := OStream.cerr

/-- Result of running a member function of an already-constructed guard:
the object state afterwards, the OS table afterwards, and the exception
that escaped (`none` for a normal return). -/
structure OpResult where
  self : SignalHandler
  os : Os
  exc : Option CppException

/-- Constructor for a simple handler (src/SignalHandler.cpp, lines 30-62).
The handler address, the flags and the optional mask populate the
`curent_signal_action` after a `memset` to zero; validation happens in source
order (null handler, SA_SIGINFO with simple handler, signal range, SIGKILL,
SIGSTOP).  The constructor performs no OS call, so the disposition table is
returned unchanged in every case. -/
def SignalHandler.mk_simple (signal_number : Int) (handler_function : Nat)
    (sa_flags : Nat) (blocked_signals : Option (List Nat)) (os : Os) :
    Except CppException SignalHandler × Os :=
  (if handler_function = 0 then
    Except.error (CppException.invalid_argument
      "Unable to establish a signal handler with no handler function.")
  else if sa_flags &&& SA_SIGINFO ≠ 0 then
    Except.error (CppException.invalid_argument
      "Flag SA_SIGINFO, but handler function is of the wrong type.")
  else if signal_number < SIGHUP ∨ signal_number > SIGRTMAX then
    Except.error (CppException.invalid_argument
      "Invalid signal number (out of range).")
  else if signal_number = SIGKILL then
    Except.error (CppException.invalid_argument
      "Action for signal SIGKILL can not be changed.")
  else if signal_number = SIGSTOP then
    Except.error (CppException.invalid_argument
      "Action for signal SIGSTOP can not be changed.")
  else
    Except.ok
      { signal_number := signal_number,
        established := false,
        curent_signal_action :=
          { sa_handler := handler_function, sa_flags := sa_flags,
            sa_mask := blocked_signals.getD [], sa_restorer := 0 },
        old_signal_action := Sigaction.zero },
  os)

/-- Constructor for an extended handler (src/SignalHandler.cpp, lines 64-96).
`sa_flags` is first or-ed with SA_SIGINFO (line 73); the range and SIGKILL
checks throw `std::logic_error` here, and the guard that the source comments
as the SIGSTOP check re-tests SIGKILL (lines 86-87), which this definition
reproduces verbatim.  No OS call is made. -/
def SignalHandler.mk_extended (signal_number : Int) (handler_function : Nat)
    (sa_flags : Nat) (blocked_signals : Option (List Nat)) (os : Os) :
    Except CppException SignalHandler × Os :=
  let sa_flags := sa_flags ||| SA_SIGINFO
  (if handler_function = 0 then
    Except.error (CppException.invalid_argument
      "Unable to establish a signal handler with no handler function.")
  else if signal_number < SIGHUP ∨ signal_number > SIGRTMAX then
    Except.error (CppException.logic_error
      "Invalid signal number (out of range).")
  else if signal_number = SIGKILL then
    Except.error (CppException.logic_error
      "Action for signal SIGKILL can not be changed.")
  else if signal_number = SIGKILL then
    Except.error (CppException.logic_error
      "Action for signal SIGSTOP can not be changed.")
  else
    Except.ok
      { signal_number := signal_number,
        established := false,
        curent_signal_action :=
          { sa_handler := handler_function, sa_flags := sa_flags,
            sa_mask := blocked_signals.getD [], sa_restorer := 0 },
        old_signal_action := Sigaction.zero },
  os)

/-- Move constructor (src/SignalHandler.cpp, lines 98-103).  All four members
are trivially copyable, so `std::move` of each one copies it and leaves the
source member unchanged; the result is `(new object, moved-from source)`. -/
def SignalHandler.moveConstruct (other : SignalHandler) :
    SignalHandler × SignalHandler :=
  ({ signal_number := other.signal_number,
     established := other.established,
     curent_signal_action := other.curent_signal_action,
     old_signal_action := other.old_signal_action },
   other)

/-- Move assignment between two distinct objects (src/SignalHandler.cpp,
lines 105-116; the `this != &other` address test passes, self-assignment is
the identity).  As in the move constructor, `std::move` of the trivially
copyable members copies them. -/
def SignalHandler.moveAssign (target other : SignalHandler) :
    SignalHandler × SignalHandler :=
  ({ signal_number := other.signal_number,
     established := other.established,
     curent_signal_action := other.curent_signal_action,
     old_signal_action := other.old_signal_action },
   other)

/-- `establish()` (src/SignalHandler.cpp, lines 133-151).  When not yet
established, `sigaction` is called with an output slot and the previously
active disposition is stored into `old_signal_action`; on a recall the output
slot is null.  `sysexcept` throws on a failing call, in which case neither
the OS table nor the object changes (`established = true` is only reached on
success). -/
def SignalHandler.establish (h : SignalHandler) (os : Os) (ok : Bool)
    (errno : Nat) : OpResult :=
  if !h.established then
    if ok then
      { self := { h with old_signal_action := os h.signal_number,
                         established := true },
        os := osSet os h.signal_number h.curent_signal_action,
        exc := none }
    else
      { self := h, os := os,
        exc := some (CppException.system_error "sigaction" errno) }
  else
    if ok then
      { self := { h with established := true },
        os := osSet os h.signal_number h.curent_signal_action,
        exc := none }
    else
      { self := h, os := os,
        exc := some (CppException.system_error "sigaction" errno) }

/-- `revoke()` (src/SignalHandler.cpp, lines 153-164).  Not established:
throw `std::logic_error` without any OS call.  Otherwise restore
`old_signal_action`; on a failing call nothing changes. -/
def SignalHandler.revoke (h : SignalHandler) (os : Os) (ok : Bool)
    (errno : Nat) : OpResult :=
  if !h.established then
    { self := h, os := os,
      exc := some (CppException.logic_error
        "revoking a signal handler that has not been established will result in undefined behavior.") }
  else
    if ok then
      { self := { h with established := false },
        os := osSet os h.signal_number h.old_signal_action,
        exc := none }
    else
      { self := h, os := os,
        exc := some (CppException.system_error "sigaction" errno) }

/-- The local `ignore_action` of `ignore()` (src/SignalHandler.cpp,
lines 171-173): zeroed by `memset`, then `sa_handler = SIG_IGN`. -/
def ignore_action : Sigaction :=
  { sa_handler := SIG_IGN, sa_flags := 0, sa_mask := [], sa_restorer := 0 }

/-- `ignore()` (src/SignalHandler.cpp, lines 169-177).  Installs
`ignore_action` for this guard's signal; no member of the object is written
(only `signal_number` is read). -/
def SignalHandler.ignore (h : SignalHandler) (os : Os) (ok : Bool)
    (errno : Nat) : OpResult :=
  if ok then
    { self := h, os := osSet os h.signal_number ignore_action, exc := none }
  else
    { self := h, os := os,
      exc := some (CppException.system_error "sigaction" errno) }

/-- Outcome of running the destructor: normal destruction, or immediate
process termination carrying the stream written to, the message and the exit
status. -/
inductive DtorOutcome where
  | normal (os : Os)
  | terminated (stream : OStream) (msg : String) (code : Nat) (os : Os)

/-- The OS table after the destructor ran (in the termination case, the table
at the moment the process exits). -/
def DtorOutcome.osOf : DtorOutcome → Os
  | DtorOutcome.normal os => os
  | DtorOutcome.terminated _ _ _ os => os

/-- Destructor (src/SignalHandler.cpp, lines 118-131).  If established, it
calls `revoke()` and catches any exception.  Modelled from the spec:
`destructor_exception_terminate` (common_header/destructor_exception.hpp, not
under src/) reports the caught failure's description to the error stream and
terminates the process with the given exit status, here EX_OSERR. -/
def SignalHandler.destruct (h : SignalHandler) (stream : OStream) (os : Os)
    (ok : Bool) (errno : Nat) : DtorOutcome :=
  if h.established then
    let r := h.revoke os ok errno
    match r.exc with
    | none => DtorOutcome.normal r.os
    | some e => DtorOutcome.terminated stream e.what EX_OSERR r.os
  else
    DtorOutcome.normal os

/-- A run of `n + 1` successful `establish()` calls on one guard, where
between two consecutive calls the environment may mutate the OS disposition
table arbitrarily (`ms` lists the mutations, one between each pair of
calls). -/
def establishSeq (h : SignalHandler) (os : Os) : List (Os → Os) → OpResult
  | [] => h.establish os true 0
  | m :: ms =>
    let r := h.establish os true 0
    establishSeq r.self (m r.os) ms

/-- Projection used to state properties of a constructor result: the flags of
the prepared disposition when construction succeeded. -/
def okFlags : Except CppException SignalHandler → Option Nat
  | Except.ok g => some g.curent_signal_action.sa_flags
  | Except.error _ => none

/-- Projection used to state properties of a constructor result: the whole
prepared disposition when construction succeeded. -/
def okAction : Except CppException SignalHandler → Option Sigaction
  | Except.ok g => some g.curent_signal_action
  | Except.error _ => none

/-- Whether a constructor outcome is a success. -/
def isOkCtor : Except CppException SignalHandler → Bool
  | Except.ok _ => true
  | Except.error _ => false

/-- Whether a constructor outcome is an `std::invalid_argument` failure. -/
def isInvalidArgErr : Except CppException SignalHandler → Bool
  | Except.error (CppException.invalid_argument _) => true
  | _ => false

/-- Concrete disposition assumed active before the test guard is created:
some pre-existing handler at address 7. -/
def origAction : Sigaction :=
  { sa_handler := 7, sa_flags := 0, sa_mask := [], sa_restorer := 0 }

/-- Concrete OS table for test runs: every signal currently has
`origAction`. -/
def os0 : Os := fun _ => origAction

/-- Concrete guard for test runs: SIGUSR1, simple handler at address 42, no
flags, empty mask (the state the simple constructor produces). -/
def testGuard : SignalHandler :=
  { signal_number := 10,
    established := false,
    curent_signal_action :=
      { sa_handler := 42, sa_flags := 0, sa_mask := [], sa_restorer := 0 },
    old_signal_action := Sigaction.zero }

/-- Concrete established guard: `testGuard` after a successful first
`establish()` against `os0`. -/
def estGuard : SignalHandler := (testGuard.establish os0 true 0).self

/-- Bitwise helper: or-ing a mask into a flag word and then masking with the
same mask yields the mask. -/
theorem lor_land_self (a b : Nat) : (a ||| b) &&& b = b := by
  apply Nat.eq_of_testBit_eq
  intro i
  rw [Nat.testBit_land, Nat.testBit_lor]
  cases ha : a.testBit i <;> cases hb : b.testBit i <;> simp

/-- Structural helper: re-setting `established` on an already-established
guard is the identity. -/
theorem set_established_eq (h : SignalHandler) (hest : h.established = true) :
    ({ h with established := true } : SignalHandler) = h := by
  cases h
  subst hest
  rfl

/-- C1 (amended): what `establish()` does to `prior_disposition`
(`old_signal_action`) on a successful call.  While already established it is
untouched, but every call made from the not-established state — the first
one, and any call that follows a `revoke()` — captures the currently active
OS disposition, overwriting the stored value. -/
theorem establish_prior_capture (h : SignalHandler) (os : Os) (e : Nat) :
    ((h.establish os true e).self).old_signal_action =
      (if h.established then h.old_signal_action else os h.signal_number) := by
  cases hh : h.established <;> simp [SignalHandler.establish, hh]

/-- C1 counterexample: on the concrete run establish, revoke, ignore,
establish (all OS calls succeeding) the second `establish()` overwrites
`old_signal_action` — the first call captured `origAction`, yet afterwards
the stored prior disposition is `ignore_action`, not `origAction`. -/
theorem prior_disposition_recaptured_after_revoke :
    ((testGuard.establish os0 true 0).self).old_signal_action = origAction
    ∧ (let r1 := testGuard.establish os0 true 0
       let r2 := r1.self.revoke r1.os true 0
       let r3 := r2.self.ignore r2.os true 0
       let r4 := r3.self.establish r3.os true 0
       r4.self.old_signal_action ≠ origAction
       ∧ r4.self.old_signal_action = ignore_action) := by
  decide

/-- C2 (code bug): `std::move` of the trivially copyable members leaves the
source guard unchanged, so after move-construction from an established guard
the moved-from source still has `established = true`, and destroying it
performs an OS restore (the table slot for signal 10 goes back to
`origAction`, although the established pending action 42 was active); move
assignment leaves its source established as well. -/
theorem moveConstruct_keeps_source_established :
    (SignalHandler.moveConstruct estGuard).2.established = true
    ∧ ((SignalHandler.moveConstruct estGuard).2.destruct OStream.cerr
        ((testGuard.establish os0 true 0).os) true 0).osOf 10 = origAction
    ∧ (testGuard.establish os0 true 0).os 10 ≠ origAction
    ∧ (SignalHandler.moveAssign testGuard estGuard).2.established = true := by
  decide

/-- C3 (code bug): the extended-form constructor accepts SIGSTOP (its second
protected-signal guard re-tests SIGKILL, src/SignalHandler.cpp lines 86-87),
while the simple form rejects SIGSTOP with `std::invalid_argument`; moreover
the extended form rejects SIGKILL with `std::logic_error`, not
`std::invalid_argument`. -/
theorem mk_extended_accepts_SIGSTOP :
    isOkCtor (SignalHandler.mk_extended SIGSTOP 42 0 none os0).1 = true
    ∧ isInvalidArgErr (SignalHandler.mk_simple SIGSTOP 42 0 none os0).1 = true
    ∧ (SignalHandler.mk_extended SIGKILL 42 0 none os0).1 =
        Except.error (CppException.logic_error
          "Action for signal SIGKILL can not be changed.") :=
  ⟨by decide, by decide, rfl⟩

/-- C6: calling `revoke()` on a guard that is not established raises
`std::logic_error` (not a system failure), makes no OS call (the disposition
table is returned unchanged), and leaves the object — in particular
`established = false` — untouched, regardless of whether a system call would
have succeeded. -/
theorem revoke_before_establish_logic_fault (h : SignalHandler) (os : Os)
    (ok : Bool) (e : Nat) (hest : h.established = false) :
    (h.revoke os ok e).exc = some (CppException.logic_error
      "revoking a signal handler that has not been established will result in undefined behavior.")
    ∧ (h.revoke os ok e).self = h
    ∧ (h.revoke os ok e).os = os := by
  simp [SignalHandler.revoke, hest]

/-- Witness for C6 at the concrete not-established test guard. -/
theorem revoke_before_establish_logic_fault_witness :
    testGuard.established = false
    ∧ ((testGuard.revoke os0 true 0).exc = some (CppException.logic_error
        "revoking a signal handler that has not been established will result in undefined behavior.")
      ∧ (testGuard.revoke os0 true 0).self = testGuard
      ∧ (testGuard.revoke os0 true 0).os = os0) :=
  ⟨rfl, revoke_before_establish_logic_fault testGuard os0 true 0 rfl⟩

/-- C8: `ignore()` never reads or writes `established`,
`curent_signal_action` or `old_signal_action` — the returned object is the
argument itself in every state and for either system-call outcome (so a guard
that never called `establish()` still has `established = false` afterwards) —
and a successful call installs the discard-signal disposition
`ignore_action` for the guard's signal. -/
theorem ignore_orthogonal (h : SignalHandler) (os : Os) (ok : Bool)
    (e : Nat) :
    (h.ignore os ok e).self = h
    ∧ (h.ignore os true e).os h.signal_number = ignore_action := by
  constructor
  · cases ok <;> simp [SignalHandler.ignore]
  · simp [SignalHandler.ignore, osSet]

/-- Helper: once the guard is established, any run of successful
re-establishes (with arbitrary environment mutations of the OS table in
between) returns the object unchanged, ends with the guard's own action
installed for its signal, and throws nothing. -/
theorem establishSeq_already_established (ms : List (Os → Os))
    (h : SignalHandler) (os : Os) (hest : h.established = true) :
    (establishSeq h os ms).self = h
    ∧ (establishSeq h os ms).os h.signal_number = h.curent_signal_action
    ∧ (establishSeq h os ms).exc = none := by
  induction ms generalizing h os with
  | nil =>
    simp [establishSeq, SignalHandler.establish, hest, osSet,
      set_established_eq h hest]
  | cons m ms ih =>
    have hself : ((h.establish os true 0).self) = h := by
      simp [SignalHandler.establish, hest, set_established_eq h hest]
    simp only [establishSeq]
    rw [hself]
    exact ih h _ hest

/-- Helper: a run of successful establishes started from a not-established
guard produces the object with `old_signal_action` holding the disposition
that was active for its signal when the run started, with `established`
true, and with the guard's own action installed. -/
theorem establishSeq_from_fresh (ms : List (Os → Os)) (h : SignalHandler)
    (os : Os) (hest : h.established = false) :
    (establishSeq h os ms).self =
      { h with old_signal_action := os h.signal_number, established := true }
    ∧ (establishSeq h os ms).os h.signal_number = h.curent_signal_action := by
  cases ms with
  | nil =>
    simp [establishSeq, SignalHandler.establish, hest, osSet]
  | cons m ms =>
    simp only [establishSeq]
    have hfirst : h.establish os true 0 =
        { self := { h with old_signal_action := os h.signal_number,
                           established := true },
          os := osSet os h.signal_number h.curent_signal_action,
          exc := none } := by
      simp [SignalHandler.establish, hest]
    rw [hfirst]
    have hrest := establishSeq_already_established ms
      { h with old_signal_action := os h.signal_number, established := true }
      ((osSet os h.signal_number h.curent_signal_action) |> m) rfl
    exact ⟨hrest.1, hrest.2.1⟩

/-- C4: establish and revoke round-trip, starting from a not-established
guard.  After any number of successful `establish()` calls (arbitrary
environment interference between consecutive calls included), the OS-active
disposition for the guard's signal equals `pending_disposition`
(`curent_signal_action`); `prior_disposition` (`old_signal_action`) still
holds what was active immediately before the first call of the run, not what
was active between repeated establishes; and the matching successful
`revoke()` makes the OS-active disposition again equal to the one active
immediately before that first `establish()`. -/
theorem establish_revoke_round_trip (h : SignalHandler) (os : Os)
    (ms : List (Os → Os)) (hest : h.established = false) :
    (establishSeq h os ms).os h.signal_number = h.curent_signal_action
    ∧ (establishSeq h os ms).self.old_signal_action = os h.signal_number
    ∧ ((establishSeq h os ms).self.revoke (establishSeq h os ms).os true 0).os
        h.signal_number = os h.signal_number := by
  obtain ⟨hself, hos⟩ := establishSeq_from_fresh ms h os hest
  refine ⟨hos, ?_, ?_⟩
  · rw [hself]
  · rw [hself]
    simp [SignalHandler.revoke, osSet]

/-- Witness for C4: the concrete test guard, two establishes with an
environment reset in between, then the revoke. -/
theorem establish_revoke_round_trip_witness :
    testGuard.established = false
    ∧ ((establishSeq testGuard os0 [fun _ => os0]).os testGuard.signal_number
          = testGuard.curent_signal_action
      ∧ (establishSeq testGuard os0 [fun _ => os0]).self.old_signal_action
          = os0 testGuard.signal_number
      ∧ ((establishSeq testGuard os0 [fun _ => os0]).self.revoke
            (establishSeq testGuard os0 [fun _ => os0]).os true 0).os
            testGuard.signal_number = os0 testGuard.signal_number) :=
  ⟨rfl, establish_revoke_round_trip testGuard os0 [fun _ => os0] rfl⟩

/-- C5: destroying an established guard attempts the revoke.  When the OS
call succeeds, destruction is normal (the prior disposition is restored and
no error escapes); when it fails, the outcome is immediate process
termination carrying the failure's description and the fixed exit status
EX_OSERR, reported to the configured stream — whose process-wide default,
the initial value of `error_stream`, is standard error. -/
theorem destructor_failure_policy (h : SignalHandler) (stream : OStream)
    (os : Os) (ok : Bool) (e : Nat) (hest : h.established = true) :
    h.destruct stream os ok e =
      (if ok then
        DtorOutcome.normal (osSet os h.signal_number h.old_signal_action)
      else
        DtorOutcome.terminated stream
          ((CppException.system_error "sigaction" e).what) EX_OSERR os)
    ∧ SignalHandler.error_stream = OStream.cerr := by
  refine ⟨?_, rfl⟩
  cases ok <;> simp [SignalHandler.destruct, SignalHandler.revoke, hest]

/-- Witness for C5 at the concrete established guard with a failing OS
call. -/
theorem destructor_failure_policy_witness :
    estGuard.established = true
    ∧ (estGuard.destruct OStream.cerr os0 false 5 =
        (if false then
          DtorOutcome.normal
            (osSet os0 estGuard.signal_number estGuard.old_signal_action)
        else
          DtorOutcome.terminated OStream.cerr
            ((CppException.system_error "sigaction" 5).what) EX_OSERR os0)
      ∧ SignalHandler.error_stream = OStream.cerr) :=
  ⟨rfl, destructor_failure_policy estGuard OStream.cerr os0 false 5 rfl⟩

/-- C7: construction never touches the OS disposition table — both
constructor forms return it unchanged for every argument list, succeeding or
failing.  With valid arguments both forms succeed with `established = false`
and a fully populated `curent_signal_action` (and the indeterminate
`old_signal_action` placeholder); with a null handler both forms fail with
`std::invalid_argument` before anything else happens. -/
theorem construction_no_os_effect
    (sig sig2 : Int) (f fl f2 fl2 : Nat) (m m2 : Option (List Nat)) (os : Os)
    (hf : f ≠ 0) (hfl : fl &&& SA_SIGINFO = 0)
    (hlo : SIGHUP ≤ sig) (hhi : sig ≤ SIGRTMAX)
    (hk : sig ≠ SIGKILL) (hs : sig ≠ SIGSTOP) :
    (SignalHandler.mk_simple sig2 f2 fl2 m2 os).2 = os
    ∧ (SignalHandler.mk_extended sig2 f2 fl2 m2 os).2 = os
    ∧ SignalHandler.mk_simple sig f fl m os =
        (Except.ok
          { signal_number := sig, established := false,
            curent_signal_action :=
              { sa_handler := f, sa_flags := fl, sa_mask := m.getD [],
                sa_restorer := 0 },
            old_signal_action := Sigaction.zero }, os)
    ∧ SignalHandler.mk_extended sig f fl m os =
        (Except.ok
          { signal_number := sig, established := false,
            curent_signal_action :=
              { sa_handler := f, sa_flags := fl ||| SA_SIGINFO,
                sa_mask := m.getD [], sa_restorer := 0 },
            old_signal_action := Sigaction.zero }, os)
    ∧ (SignalHandler.mk_simple sig2 0 fl2 m2 os).1 =
        Except.error (CppException.invalid_argument
          "Unable to establish a signal handler with no handler function.")
    ∧ (SignalHandler.mk_extended sig2 0 fl2 m2 os).1 =
        Except.error (CppException.invalid_argument
          "Unable to establish a signal handler with no handler function.") := by
  simp only [SIGHUP, SIGKILL, SIGSTOP, SIGRTMAX] at hlo hhi hk hs
  refine ⟨rfl, rfl, ?_, ?_, ?_, ?_⟩
  · simp only [SignalHandler.mk_simple, SIGHUP, SIGKILL, SIGSTOP, SIGRTMAX]
    rw [if_neg hf, if_neg (by simp [hfl]), if_neg (by omega), if_neg hk,
      if_neg hs]
  · simp only [SignalHandler.mk_extended, SIGHUP, SIGKILL, SIGSTOP, SIGRTMAX]
    rw [if_neg hf, if_neg (by omega), if_neg hk, if_neg hk]
  · simp [SignalHandler.mk_simple]
  · simp [SignalHandler.mk_extended]

/-- Witness for C7: a valid simple-form argument list (SIGUSR1, handler 42,
no flags, no mask) and an arbitrary other argument list (SIGKILL, handler 3,
flags 4, a mask) exercising the frame and null-handler parts. -/
theorem construction_no_os_effect_witness :
    (SignalHandler.mk_simple 9 3 4 (some [2]) os0).2 = os0
    ∧ (SignalHandler.mk_extended 9 3 4 (some [2]) os0).2 = os0
    ∧ SignalHandler.mk_simple 10 42 0 none os0 =
        (Except.ok
          { signal_number := 10, established := false,
            curent_signal_action :=
              { sa_handler := 42, sa_flags := 0, sa_mask := [],
                sa_restorer := 0 },
            old_signal_action := Sigaction.zero }, os0)
    ∧ SignalHandler.mk_extended 10 42 0 none os0 =
        (Except.ok
          { signal_number := 10, established := false,
            curent_signal_action :=
              { sa_handler := 42, sa_flags := 0 ||| SA_SIGINFO, sa_mask := [],
                sa_restorer := 0 },
            old_signal_action := Sigaction.zero }, os0)
    ∧ (SignalHandler.mk_simple 9 0 4 (some [2]) os0).1 =
        Except.error (CppException.invalid_argument
          "Unable to establish a signal handler with no handler function.")
    ∧ (SignalHandler.mk_extended 9 0 4 (some [2]) os0).1 =
        Except.error (CppException.invalid_argument
          "Unable to establish a signal handler with no handler function.") :=
  construction_no_os_effect 10 9 42 0 3 4 none (some [2]) os0
    (by decide) (by decide) (by decide) (by decide) (by decide) (by decide)

/-- C9: shape and flag consistency at construction.  Whenever the
extended-form constructor succeeds, the prepared disposition has the
SA_SIGINFO flag set regardless of the caller's flags argument; and the
simple-form constructor rejects with `std::invalid_argument` every flags
argument containing SA_SIGINFO. -/
theorem handler_shape_flag_consistency (sig : Int) (f fl fl2 : Nat)
    (m : Option (List Nat)) (os : Os) (hfl : fl &&& SA_SIGINFO ≠ 0) :
    (okFlags (SignalHandler.mk_extended sig f fl2 m os).1).all
        (fun n => n &&& SA_SIGINFO == SA_SIGINFO) = true
    ∧ isInvalidArgErr (SignalHandler.mk_simple sig f fl m os).1 = true := by
  constructor
  · simp only [SignalHandler.mk_extended]
    split_ifs <;> simp [okFlags, lor_land_self]
  · by_cases hf : f = 0
    · simp [SignalHandler.mk_simple, hf, isInvalidArgErr]
    · simp [SignalHandler.mk_simple, hf, hfl, isInvalidArgErr]

/-- Witness for C9: extended form with caller flags 0 still carries
SA_SIGINFO; simple form with caller flags SA_SIGINFO is rejected. -/
theorem handler_shape_flag_consistency_witness :
    SA_SIGINFO &&& SA_SIGINFO ≠ 0
    ∧ ((okFlags (SignalHandler.mk_extended 10 42 0 none os0).1).all
          (fun n => n &&& SA_SIGINFO == SA_SIGINFO) = true
      ∧ isInvalidArgErr
          (SignalHandler.mk_simple 10 42 SA_SIGINFO none os0).1 = true) :=
  ⟨by decide,
   handler_shape_flag_consistency 10 42 SA_SIGINFO 0 none os0 (by decide)⟩

/-- C10: with a null `blocked_signals` argument the prepared disposition,
whenever either constructor succeeds, has an empty blocked-signal mask and
zero in the remaining `memset`-cleared member; a simple-form guard built
with the default arguments (flags 0, no mask) prepares a disposition whose
flags are zero and whose mask is empty. -/
theorem default_mask_zero_init (sig : Int) (f fl : Nat) (os : Os) :
    (okAction (SignalHandler.mk_simple sig f fl none os).1).all
        (fun a => a.sa_mask == ([] : List Nat) && a.sa_restorer == 0) = true
    ∧ (okAction (SignalHandler.mk_extended sig f fl none os).1).all
        (fun a => a.sa_mask == ([] : List Nat) && a.sa_restorer == 0) = true
    ∧ (okAction (SignalHandler.mk_simple sig f 0 none os).1).all
        (fun a => a.sa_flags == 0 && a.sa_mask == ([] : List Nat)) = true := by
  refine ⟨?_, ?_, ?_⟩
  · simp only [SignalHandler.mk_simple]
    split_ifs <;> simp [okAction]
  · simp only [SignalHandler.mk_extended]
    split_ifs <;> simp [okAction]
  · simp only [SignalHandler.mk_simple]
    split_ifs <;> simp [okAction]
